import Mathlib

/-!
Verification of the AERA voice-capture pipeline and API-client glue.

The definitions below are a shallow embedding of the TypeScript sources:
* `src/src/hooks/useGroqSTT.ts` — voice-activity-detected (VAD) audio
  capture, silence auto-stop, clip gating, and transcription upload;
* the Groq chat service (`sendMessageToGemini` / `streamMessageToGemini`)
  with its rolling conversation history;
* the Raspberry-Pi sensor service (`fetchSensorData`).

Platform calls (getUserMedia, fetch, JSON.parse, Date.now) are modelled as
explicit inputs; machine timestamps are `Int` (JS number subtraction),
volume samples are lists of byte values whose float average is a `Rat`.
-/

namespace Aera

/-! ## VAD configuration (useGroqSTT.ts lines 8-10) -/

/-- Volume level (0-255) to consider as "speech" (`VAD_THRESHOLD = 20`). -/
def VAD_THRESHOLD : ℚ := 20

/-- Wait 1.5 s of silence before stopping (`SILENCE_DURATION = 1500`). -/
def SILENCE_DURATION : ℤ := 1500

/-! ## VAD loop state (refs `isSpeechDetectedRef`, `lastSpeechTimeRef`) -/

structure VADState where
  speechDetected : Bool
  lastSpeechTime : ℤ
deriving DecidableEq

/-- The state installed by `startListening` (lines 84-85): both refs reset. -/
def initVAD : VADState := { speechDetected := false, lastSpeechTime := 0 }

/-- One animation-frame sample: the frequency-bin byte array read by
`getByteFrequencyData`, and the wall clock `Date.now()` at the tick. -/
structure VolumeTick where
  dataArray : List ℕ
  now : ℤ

/-- `const sum = dataArray.reduce((a, b) => a + b, 0);
     const average = sum / dataArray.length;` (lines 125-126). -/
def averageVolume (dataArray : List ℕ) : ℚ :=
  ((dataArray.foldl (fun a b => a + b) 0 : ℕ) : ℚ) / (dataArray.length : ℚ)

/-- Outcome of one `checkVolume` invocation: either the loop stopped
(`stopListening()` was called and no further frame was scheduled), or the
next animation frame was scheduled (`requestAnimationFrame(checkVolume)`). -/
inductive TickOutcome
  | halted (s : VADState)
  | scheduled (s : VADState)
deriving DecidableEq

/-- The body of `checkVolume` (lines 118-153): detect speech start
(average above threshold sets both refs), then the silence check that is
only armed once speech has been detected. -/
def checkVolume (s : VADState) (t : VolumeTick) : TickOutcome :=
  let average := averageVolume t.dataArray
  let s1 : VADState :=
    if average > VAD_THRESHOLD then
      { speechDetected := true, lastSpeechTime := t.now }
    else s
  if s1.speechDetected && decide (t.now - s1.lastSpeechTime > SILENCE_DURATION) then
    TickOutcome.halted s1
  else
    TickOutcome.scheduled s1

/-- The posterior ref state of a tick, in either outcome. -/
def tickState : TickOutcome → VADState
  | TickOutcome.halted s => s
  | TickOutcome.scheduled s => s

/-- Run the VAD loop over a list of ticks.  Returns the final ref state,
whether the loop auto-stopped, and how many ticks were consumed (a halt
schedules no further tick, so the remainder of the list is never seen). -/
def runVAD (s : VADState) : List VolumeTick → VADState × Bool × ℕ
  | [] => (s, false, 0)
  | t :: rest =>
    match checkVolume s t with
    | TickOutcome.halted s1 => (s1, true, 1)
    | TickOutcome.scheduled s1 =>
      let r := runVAD s1 rest
      (r.1, r.2.1, r.2.2 + 1)

/-! ## Clip gating at recorder stop (lines 96-111) -/

/-- Minimum viable-audio size: `audioBlob.size > 1000`. -/
def MIN_CLIP_BYTES : ℕ := 1000

/-- What `mediaRecorder.onstop` does with the finished clip: `submit` is
the `await processAudio(audioBlob)` branch; `discard` only logs
"[STT] Ignored" — no upload is attempted and no error is set. -/
inductive StopDisposition
  | submit
  | discard
deriving DecidableEq

/-- `if (isSpeechDetectedRef.current && audioBlob.size > 1000)` (line 104). -/
def onStopDisposition (speechDetected : Bool) (sizeBytes : ℕ) : StopDisposition :=
  if speechDetected && decide (sizeBytes > MIN_CLIP_BYTES) then
    StopDisposition.submit
  else
    StopDisposition.discard

/-! ## Session teardown (useGroqSTT.ts: `stopListening` lines 164-172,
`cleanupAudio` lines 39-59)

The refs observed by the two routines: whether the recorder exists with
`state !== 'inactive'`, the pending animation-frame id, whether the source
and analyser nodes are still connected (refs non-null), and whether the
audio context is non-null and not closed.  `MediaRecorder.stop()`
transitions the recorder to `inactive`; each guard nulls its ref. -/

structure RecorderRefs where
  recorderActive : Bool
  animationFrame : Option ℤ
  sourceConnected : Bool
  analyserConnected : Bool
  contextOpen : Bool
deriving DecidableEq

/-- The externally visible operations a teardown run performs. -/
inductive TeardownAction
  | recorderStop
  | cancelFrame (id : ℤ)
  | disconnectSource
  | disconnectAnalyser
  | closeContext
deriving DecidableEq

/-- `stopListening` (lines 164-172): stop the recorder if not inactive,
cancel the pending animation frame if any. -/
def stopListening (s : RecorderRefs) : RecorderRefs × List TeardownAction :=
  let recActs := if s.recorderActive then [TeardownAction.recorderStop] else []
  let frameActs :=
    match s.animationFrame with
    | some id => [TeardownAction.cancelFrame id]
    | none => []
  ({ s with recorderActive := false, animationFrame := none },
   recActs ++ frameActs)

/-- `cleanupAudio` (lines 39-59): stop the recorder if not inactive, cancel
the frame, disconnect source and analyser, close the audio context; every
guard nulls its ref so a second call finds nothing to do. -/
def cleanupAudio (s : RecorderRefs) : RecorderRefs × List TeardownAction :=
  let recActs := if s.recorderActive then [TeardownAction.recorderStop] else []
  let frameActs :=
    match s.animationFrame with
    | some id => [TeardownAction.cancelFrame id]
    | none => []
  let srcActs := if s.sourceConnected then [TeardownAction.disconnectSource] else []
  let anActs := if s.analyserConnected then [TeardownAction.disconnectAnalyser] else []
  let ctxActs := if s.contextOpen then [TeardownAction.closeContext] else []
  ({ recorderActive := false, animationFrame := none, sourceConnected := false,
     analyserConnected := false, contextOpen := false },
   recActs ++ frameActs ++ srcActs ++ anActs ++ ctxActs)

/-! ## Transcription upload (`processAudio`, useGroqSTT.ts lines 174-203) -/

/-- The observable outcome of `processAudio`: the transcript state set via
`setTranscript` and the error state set via `setError`. -/
structure STTOutcome where
  transcript : Option String
  errorMsg : Option String
deriving DecidableEq

/-- The result of the `fetch` to the STT endpoint: the promise rejected
(network failure / abort), or a response with its `ok` flag, status, and
the `text` field of the parsed JSON body (absent when the body has none). -/
inductive STTFetch
  | failed
  | response (ok : Bool) (status : ℕ) (textField : Option String)

/-- Model of the JS builtin `String.prototype.trim`: remove leading and
trailing whitespace characters.  (Executable, unlike `String.trim`, whose
well-founded auxiliaries do not reduce in the kernel.) -/
def jsTrim (s : String) : String :=
  String.mk (((s.data.dropWhile Char.isWhitespace).reverse.dropWhile
    Char.isWhitespace).reverse)

/-- `processAudio` (lines 174-203).  Missing key returns early with
"Missing API Key"; a non-ok response throws into the catch which sets
"Transcription failed"; on success the `text` field is gated by JS
truthiness (`if (data.text)`), trimmed, and only a non-empty trimmed
string is set as the transcript. -/
def processAudio (hasApiKey : Bool) (f : STTFetch) : STTOutcome :=
  if !hasApiKey then { transcript := none, errorMsg := some "Missing API Key" }
  else
    match f with
    | STTFetch.failed => { transcript := none, errorMsg := some "Transcription failed" }
    | STTFetch.response ok _ textField =>
      if !ok then { transcript := none, errorMsg := some "Transcription failed" }
      else
        match textField with
        | none => { transcript := none, errorMsg := none }
        | some t =>
          if t ≠ "" then
            let cleanText := jsTrim t
            if cleanText.length > 0 then
              { transcript := some cleanText, errorMsg := none }
            else
              { transcript := none, errorMsg := none }
          else { transcript := none, errorMsg := none }

/-! ## Groq chat service (`sendMessageToGemini` / `streamMessageToGemini`)

The module-global `conversationHistory` is threaded explicitly: each
function takes the history before the call and returns the history after
it, together with the result or thrown error.  The fetch round trip and
the per-chunk JSON parsing are inputs. -/

inductive Role
  | system
  | user
  | assistant
deriving DecidableEq

structure ChatMessage where
  role : Role
  content : String
deriving DecidableEq

instance : Inhabited ChatMessage := ⟨{ role := Role.system, content := "" }⟩

/-- The system prompt pushed at index 0 on first use (the source's full
Albanian text is abbreviated to its first line; only its identity as the
index-0 system entry matters here). -/
def SYSTEM_PROMPT : String := "Ti je AERA, një pasqyrë inteligjente futuristike."

/-- `data.choices[0]?.message?.content || "Më falni, ..."` fallback. -/
def CHAT_FALLBACK : String := "Më falni, nuk arrita të përgjigjem."

/-- Errors thrown by the chat functions: `GeminiConfigError`,
`GeminiApiError (message, statusCode?, isRetryable)`, or a rethrown fetch
rejection (network failure). -/
inductive ChatError
  | configError (msg : String)
  | apiError (msg : String) (statusCode : Option ℕ) (isRetryable : Bool)
  | networkError
deriving DecidableEq

/-- The fetch to the chat-completions endpoint: rejected, or a response
with its `ok` flag, status, and `choices[0]?.message?.content`. -/
inductive ChatFetch
  | failed
  | response (ok : Bool) (status : ℕ) (content : Option String)

/-- `if (conversationHistory.length === 0) push(system)` (lines 45-47). -/
def initHistory (h : List ChatMessage) : List ChatMessage :=
  if h.length = 0 then [{ role := Role.system, content := SYSTEM_PROMPT }] else h

/-- Memory management (lines 82-87): when the history exceeds 7 entries,
keep `[history[0], ...history.slice(-6)]`. -/
def trimHistory (h : List ChatMessage) : List ChatMessage :=
  if h.length > 7 then h.headI :: h.drop (h.length - 6) else h

/-- `data.choices[0]?.message?.content || fallback` (line 77): the content
when present and truthy (non-empty), the fallback string otherwise. -/
def resolveReply (content : Option String) : String :=
  match content with
  | some c => if c ≠ "" then c else CHAT_FALLBACK
  | none => CHAT_FALLBACK

/-- `sendMessageToGemini` (lines 41-96).  Missing key throws before any
push; otherwise the history is initialized if empty and the user message
pushed; a non-ok response throws `GeminiApiError` (429 marked retryable),
a rejected fetch rethrows, and the catch pops the pushed user message; on
success the assistant reply is pushed and the history trimmed. -/
def sendMessageToGemini (hasKey : Bool) (history : List ChatMessage)
    (userMessage : String) (f : ChatFetch) :
    Except ChatError String × List ChatMessage :=
  if !hasKey then
    (Except.error (ChatError.configError "VITE_GROQ_API_KEY is missing"), history)
  else
    let h2 := initHistory history ++ [{ role := Role.user, content := userMessage }]
    match f with
    | ChatFetch.failed =>
      (Except.error ChatError.networkError, h2.dropLast)
    | ChatFetch.response ok status content =>
      if !ok then
        if status = 429 then
          (Except.error (ChatError.apiError "Groq Rate Limit - Too fast" (some 429) true),
           h2.dropLast)
        else
          (Except.error (ChatError.apiError "Groq Error" (some status) false),
           h2.dropLast)
      else
        let reply := resolveReply content
        (Except.ok reply,
         trimHistory (h2 ++ [{ role := Role.assistant, content := reply }]))

/-! ### Streaming variant (lines 99-158) -/

/-- Model of the JS builtin `String.prototype.startsWith` (executable,
unlike `String.startsWith`, whose substring comparison does not reduce in
the kernel). -/
def jsStartsWith (s pfx : String) : Bool :=
  s.data.take pfx.data.length == pfx.data

/-- Per-line processing inside the stream read loop (lines 137-148):
`parse` abstracts `JSON.parse` composed with `json.choices[0]?.delta?.content`
(`none` = parse threw, `some none` = parsed but no content).  Returns the
updated running reply and the chunk yielded by this line, if any. -/
def processLine (parse : String → Option (Option String)) (acc : String)
    (line : String) : String × Option String :=
  if jsStartsWith line "data: " && line != "data: [DONE]" then
    match parse (line.drop 6) with
    | none => (acc, none)
    | some none => (acc, none)
    | some (some c) => if c ≠ "" then (acc ++ c, some c) else (acc, none)
  else (acc, none)

/-- Fold `processLine` over the decoded lines of the stream, collecting the
full response and the yielded chunks in order. -/
def processLines (parse : String → Option (Option String)) (acc : String) :
    List String → String × List String
  | [] => (acc, [])
  | line :: rest =>
    let r := processLine parse acc line
    let rr := processLines parse r.1 rest
    match r.2 with
    | some c => (rr.1, c :: rr.2)
    | none => (rr.1, rr.2)

/-- The stream fetch: rejected, or a response with `ok`, status, and the
newline-split lines delivered by the reader. -/
inductive StreamFetch
  | failed
  | response (ok : Bool) (status : ℕ) (lines : List String)

/-- `streamMessageToGemini` (lines 99-158): like the non-streaming call,
but the reply is assembled from the streamed lines, and — unlike
`sendMessageToGemini` — the history is NOT trimmed after the push of the
assistant reply. -/
def streamMessageToGemini (parse : String → Option (Option String))
    (hasKey : Bool) (history : List ChatMessage) (userMessage : String)
    (f : StreamFetch) :
    Except ChatError (String × List String) × List ChatMessage :=
  if !hasKey then
    (Except.error (ChatError.configError "API Key missing"), history)
  else
    let h2 := initHistory history ++ [{ role := Role.user, content := userMessage }]
    match f with
    | StreamFetch.failed =>
      (Except.error ChatError.networkError, h2.dropLast)
    | StreamFetch.response ok _status lines =>
      if !ok then
        (Except.error (ChatError.apiError "Stream Error" none false), h2.dropLast)
      else
        let r := processLines parse "" lines
        (Except.ok r,
         h2 ++ [{ role := Role.assistant, content := r.1 }])

/-! ## Raspberry-Pi sensor service (`fetchSensorData`)

JSON field values are modelled by `JValue`; `typeof x === 'number'` and
`Boolean(x)` coercions by `asNum` and `truthy`.  `lastUpdated : ℤ` is the
`new Date()` timestamp, passed in as `now`. -/

inductive JValue
  | jnull
  | jbool (b : Bool)
  | jnum (q : ℚ)
  | jstr (s : String)
  | jobj
deriving DecidableEq

/-- `typeof x === 'number' ? x : null` (an absent field is `undefined`). -/
def asNum : Option JValue → Option ℚ
  | some (JValue.jnum q) => some q
  | _ => none

/-- `Boolean(x)`: JS truthiness of a JSON field (`undefined`, `null`,
`false`, `0` and `""` are falsy; objects and arrays are truthy). -/
def truthy : Option JValue → Bool
  | none => false
  | some JValue.jnull => false
  | some (JValue.jbool b) => b
  | some (JValue.jnum q) => !(q == 0)
  | some (JValue.jstr s) => !(s == "")
  | some JValue.jobj => true

structure SensorData where
  temperature : Option ℚ
  humidity : Option ℚ
  tempAlert : Bool
  light : Option ℚ
  lightIsDark : Bool
  motion : Bool
  lastMotion : Option ℚ
  isConnected : Bool
  lastUpdated : ℤ
deriving DecidableEq

/-- The JSON body of `GET /sensors`: each expected field may be absent or
hold a value of any type. -/
structure SensorResponse where
  temperature : Option JValue
  humidity : Option JValue
  temp_alert : Option JValue
  light : Option JValue
  light_is_dark : Option JValue
  motion : Option JValue
  last_motion : Option JValue

/-- `{ ...DEFAULT_SENSOR_DATA, lastUpdated: new Date() }`: the default
record returned when not connected. -/
def defaultSensorAt (now : ℤ) : SensorData :=
  { temperature := none, humidity := none, tempAlert := false, light := none,
    lightIsDark := false, motion := false, lastMotion := none,
    isConnected := false, lastUpdated := now }

/-- The fetch to the sensor endpoint: rejected (network failure or the
5-second timeout abort), or a response with its `ok` flag and parsed JSON
body (`none` when `response.json()` throws). -/
inductive SensorFetch
  | networkFailure
  | response (ok : Bool) (json : Option SensorResponse)

/-- `fetchSensorData`: simulation mode returns the simulated record;
missing device IP returns the default; a rejected fetch, non-ok status or
unparseable body is caught and returns the default; a parsed body is
mapped field by field with `typeof`/`Boolean` coercions. -/
def fetchSensorData (simMode : Bool) (piIp : String) (f : SensorFetch)
    (simData : SensorData) (now : ℤ) : SensorData :=
  if simMode then simData
  else if piIp = "" then defaultSensorAt now
  else
    match f with
    | SensorFetch.networkFailure => defaultSensorAt now
    | SensorFetch.response ok json =>
      if !ok then defaultSensorAt now
      else
        match json with
        | none => defaultSensorAt now
        | some d =>
          { temperature := asNum d.temperature,
            humidity := asNum d.humidity,
            tempAlert := truthy d.temp_alert,
            light := asNum d.light,
            lightIsDark := truthy d.light_is_dark,
            motion := truthy d.motion,
            lastMotion := asNum d.last_motion,
            isConnected := true,
            lastUpdated := now }

/-! ## Helper lemmas for the VAD loop -/

lemma checkVolume_quiet (s : VADState) (t : VolumeTick)
    (hs : s.speechDetected = false)
    (hq : averageVolume t.dataArray ≤ VAD_THRESHOLD) :
    checkVolume s t = TickOutcome.scheduled s := by
  simp [checkVolume, not_lt.mpr hq, hs]

lemma runVAD_quiet (ticks : List VolumeTick) (s : VADState)
    (hs : s.speechDetected = false)
    (hq : ∀ t ∈ ticks, averageVolume t.dataArray ≤ VAD_THRESHOLD) :
    runVAD s ticks = (s, false, ticks.length) := by
  induction ticks with
  | nil => rfl
  | cons t rest ih =>
    have hc := checkVolume_quiet s t hs (hq t (List.mem_cons_self t rest))
    have hr := ih fun u hu => hq u (List.mem_cons_of_mem t hu)
    simp [runVAD, hc, hr]

lemma checkVolume_speech (s : VADState) (t : VolumeTick)
    (hl : VAD_THRESHOLD < averageVolume t.dataArray) :
    checkVolume s t =
      TickOutcome.scheduled { speechDetected := true, lastSpeechTime := t.now } := by
  simp [checkVolume, hl, SILENCE_DURATION]

lemma checkVolume_window (t0 : ℤ) (t : VolumeTick)
    (hq : averageVolume t.dataArray ≤ VAD_THRESHOLD)
    (hw : t.now - t0 ≤ SILENCE_DURATION) :
    checkVolume { speechDetected := true, lastSpeechTime := t0 } t =
      TickOutcome.scheduled { speechDetected := true, lastSpeechTime := t0 } := by
  simp [checkVolume, not_lt.mpr hq, not_lt.mpr hw]

lemma checkVolume_silence_halt (t0 : ℤ) (t : VolumeTick)
    (hq : averageVolume t.dataArray ≤ VAD_THRESHOLD)
    (hw : SILENCE_DURATION < t.now - t0) :
    checkVolume { speechDetected := true, lastSpeechTime := t0 } t =
      TickOutcome.halted { speechDetected := true, lastSpeechTime := t0 } := by
  simp [checkVolume, not_lt.mpr hq, hw]

lemma runVAD_window (t0 : ℤ) (mid : List VolumeTick) (more : List VolumeTick)
    (hm : ∀ t ∈ mid,
      averageVolume t.dataArray ≤ VAD_THRESHOLD ∧ t.now - t0 ≤ SILENCE_DURATION) :
    runVAD { speechDetected := true, lastSpeechTime := t0 } (mid ++ more) =
      ((runVAD { speechDetected := true, lastSpeechTime := t0 } more).1,
       (runVAD { speechDetected := true, lastSpeechTime := t0 } more).2.1,
       (runVAD { speechDetected := true, lastSpeechTime := t0 } more).2.2 + mid.length) := by
  induction mid with
  | nil => simp
  | cons t rest ih =>
    have h1 := hm t (List.mem_cons_self t rest)
    have hc := checkVolume_window t0 t h1.1 h1.2
    have hr := ih fun u hu => hm u (List.mem_cons_of_mem t hu)
    simp [runVAD, hc, hr]
    omega

lemma tickState_checkVolume (s : VADState) (t : VolumeTick) :
    tickState (checkVolume s t) =
      if VAD_THRESHOLD < averageVolume t.dataArray then
        { speechDetected := true, lastSpeechTime := t.now }
      else s := by
  unfold checkVolume
  by_cases h : VAD_THRESHOLD < averageVolume t.dataArray <;>
    simp only [h, if_true, if_false] <;> split <;> simp [tickState]

lemma checkVolume_preserves (s : VADState) (t : VolumeTick)
    (hs : s.speechDetected = true) :
    (tickState (checkVolume s t)).speechDetected = true := by
  rw [tickState_checkVolume]
  by_cases h : VAD_THRESHOLD < averageVolume t.dataArray <;> simp [h, hs]

lemma runVAD_preserves (ticks : List VolumeTick) (s : VADState)
    (hs : s.speechDetected = true) :
    ((runVAD s ticks).1).speechDetected = true := by
  induction ticks generalizing s with
  | nil => exact hs
  | cons t rest ih =>
    have h1 := checkVolume_preserves s t hs
    rw [runVAD]
    cases hct : checkVolume s t with
    | halted s1 =>
      rw [hct] at h1
      simpa [tickState] using h1
    | scheduled s1 =>
      rw [hct] at h1
      simp only [tickState] at h1
      simpa using ih s1 h1

/-! ## Claim theorems: clip gating and VAD temporal behavior -/

/-- Claim C1: a finished clip is submitted to the transcription client
(`processAudio`) if and only if speech was detected during the session and
the clip size exceeds the 1000-byte minimum; otherwise it is discarded
(the `discard` branch performs no upload and sets no error). -/
theorem clip_submit_iff (speechDetected : Bool) (sizeBytes : ℕ) :
    onStopDisposition speechDetected sizeBytes = StopDisposition.submit ↔
      speechDetected = true ∧ sizeBytes > MIN_CLIP_BYTES := by
  cases speechDetected <;>
    by_cases h : sizeBytes > MIN_CLIP_BYTES <;>
      simp [onStopDisposition, h]

/-- Claim C2: if the measured average energy never exceeds the threshold
during a session, the VAD loop never auto-stops: every tick schedules
the next one (all ticks of the trace are consumed and the stop flag stays
false), so only an explicit `stopListening` can end the session. -/
theorem vad_no_speech_no_autostop (ticks : List VolumeTick)
    (hq : ∀ t ∈ ticks, averageVolume t.dataArray ≤ VAD_THRESHOLD) :
    (runVAD initVAD ticks).2.1 = false ∧
      (runVAD initVAD ticks).2.2 = ticks.length := by
  rw [runVAD_quiet ticks initVAD rfl hq]
  exact ⟨rfl, rfl⟩

lemma quiet_trace_example :
    ∀ t ∈ [VolumeTick.mk [5, 15] 100, VolumeTick.mk [20] 5000],
      averageVolume t.dataArray ≤ VAD_THRESHOLD := by
  intro t ht
  fin_cases ht <;>
    norm_num [averageVolume, VAD_THRESHOLD, List.foldl]

theorem vad_no_speech_no_autostop_witness :
    (∀ t ∈ [VolumeTick.mk [5, 15] 100, VolumeTick.mk [20] 5000],
        averageVolume t.dataArray ≤ VAD_THRESHOLD) ∧
    (runVAD initVAD [VolumeTick.mk [5, 15] 100, VolumeTick.mk [20] 5000]).2.1 = false :=
  ⟨quiet_trace_example, (vad_no_speech_no_autostop _ quiet_trace_example).1⟩

/-- Claim C3: once a tick's average energy exceeds the threshold (setting
`lastSpeechTime := t0`), and every later tick stays at or below threshold,
the loop keeps scheduling while `now - t0 ≤ SILENCE_DURATION` and halts at
the first tick with `now - t0 > SILENCE_DURATION`, consuming exactly the
ticks up to and including that one — no further tick is scheduled. -/
theorem vad_silence_autostop (s : VADState) (d0 : List ℕ) (t0 : ℤ)
    (mid : List VolumeTick) (dF : List ℕ) (tF : ℤ) (post : List VolumeTick)
    (h0 : VAD_THRESHOLD < averageVolume d0)
    (hm : ∀ t ∈ mid,
      averageVolume t.dataArray ≤ VAD_THRESHOLD ∧ t.now - t0 ≤ SILENCE_DURATION)
    (hF : averageVolume dF ≤ VAD_THRESHOLD)
    (hFt : SILENCE_DURATION < tF - t0) :
    runVAD s (VolumeTick.mk d0 t0 :: (mid ++ VolumeTick.mk dF tF :: post)) =
      ({ speechDetected := true, lastSpeechTime := t0 }, true, mid.length + 2) := by
  have hc0 := checkVolume_speech s (VolumeTick.mk d0 t0) h0
  have hw := runVAD_window t0 mid (VolumeTick.mk dF tF :: post) hm
  have hhalt := checkVolume_silence_halt t0 (VolumeTick.mk dF tF) hF hFt
  simp [runVAD, hc0, hw, hhalt]
  omega

theorem vad_silence_autostop_witness :
    runVAD initVAD
        [VolumeTick.mk [100] 0, VolumeTick.mk [3] 1000, VolumeTick.mk [0] 1600] =
      ({ speechDetected := true, lastSpeechTime := 0 }, true, 3) := by
  have h := vad_silence_autostop initVAD [100] 0 [VolumeTick.mk [3] 1000] [0] 1600 []
    (by norm_num [averageVolume, VAD_THRESHOLD, List.foldl])
    (by
      intro t ht
      fin_cases ht
      exact ⟨by norm_num [averageVolume, VAD_THRESHOLD, List.foldl],
        by norm_num [SILENCE_DURATION]⟩)
    (by norm_num [averageVolume, VAD_THRESHOLD, List.foldl])
    (by norm_num [SILENCE_DURATION])
  simpa using h

/-- Claim C4: `speechDetected` is monotone within a session — neither a
single VAD tick (in either outcome) nor any run of the loop ever takes it
from true back to false; the only reset to false is `initVAD`, the state
installed when a new session starts. -/
theorem vad_speech_monotone (s : VADState) (hs : s.speechDetected = true) :
    (∀ t, (tickState (checkVolume s t)).speechDetected = true) ∧
    (∀ ticks, ((runVAD s ticks).1).speechDetected = true) ∧
    initVAD.speechDetected = false :=
  ⟨fun t => checkVolume_preserves s t hs,
   fun ticks => runVAD_preserves ticks s hs,
   rfl⟩

/-- Claim C9: the stop/teardown routines are idempotent.  Once
`stopListening` (or `cleanupAudio`) has run — recorder inactive, animation
frame cancelled, refs nulled — running either routine again changes no
state and performs no action (every guard is false, so nothing can throw),
even when manual stop and VAD auto-stop fire in quick succession. -/
theorem teardown_idempotent (s : RecorderRefs) :
    stopListening (stopListening s).1 = ((stopListening s).1, []) ∧
    cleanupAudio (cleanupAudio s).1 = ((cleanupAudio s).1, []) ∧
    stopListening (cleanupAudio s).1 = ((cleanupAudio s).1, []) := by
  refine ⟨?_, ?_, ?_⟩ <;> simp [stopListening, cleanupAudio]

lemma string_length_pos_of_ne (s : String) (h : s ≠ "") : 0 < s.length := by
  cases s with
  | mk data =>
    cases data with
    | nil => exact absurd rfl h
    | cons a as => simp [String.length]

/-- Claim C5: for a successful STT response whose JSON body carries a
`text` field, the transcript set for the session is exactly that string
trimmed; when the trimmed string is empty no transcript is produced; in
either case no error is set.  Concretely, `" Përshëndetje "` yields the
transcript `"Përshëndetje"`. -/
theorem transcript_trim (status : ℕ) (t : String) :
    processAudio true (STTFetch.response true status (some t)) =
      { transcript := if jsTrim t = "" then none else some (jsTrim t),
        errorMsg := none } ∧
    processAudio true (STTFetch.response true 200 (some " Përshëndetje ")) =
      { transcript := some "Përshëndetje", errorMsg := none } := by
  constructor
  · by_cases h1 : t = ""
    · subst h1
      rfl
    · by_cases h2 : jsTrim t = ""
      · simp [processAudio, h1, h2, show (("" : String).length = 0) from rfl]
      · have hlen := string_length_pos_of_ne _ h2
        simp [processAudio, h1, h2, hlen]
  · rfl

theorem vad_speech_monotone_witness :
    (tickState (checkVolume { speechDetected := true, lastSpeechTime := 0 }
        (VolumeTick.mk [0] 5000))).speechDetected = true :=
  (vad_speech_monotone { speechDetected := true, lastSpeechTime := 0 } rfl).1
    (VolumeTick.mk [0] 5000)

/-! ## Claim theorems: chat service history and streaming -/

/-- Claim C6 does not hold verbatim: with an initially empty history, the
429 path pops the pushed user message but leaves the system prompt that
was installed during the call, so the history is not restored to its
pre-call state (`[]`). -/
theorem rate_limit_history_counterexample :
    (sendMessageToGemini true [] "Tung" (ChatFetch.response false 429 none)).2 ≠
      ([] : List ChatMessage) := by
  decide

/-- Claim C6 (amended): an HTTP 429 response surfaces
`GeminiApiError(status = 429, isRetryable = true)` with no retry, and the
pushed user message is removed, restoring the history to its pre-call
state — except that a history that was empty before the call keeps the
system prompt installed during initialization.  For any nonempty pre-call
history the restoration is exact. -/
theorem rate_limit_retryable (history : List ChatMessage) (m : String) :
    sendMessageToGemini true history m (ChatFetch.response false 429 none) =
      (Except.error (ChatError.apiError "Groq Rate Limit - Too fast" (some 429) true),
       initHistory history) ∧
    (history ≠ [] →
      (sendMessageToGemini true history m (ChatFetch.response false 429 none)).2 =
        history) := by
  have hdrop :
      (initHistory history ++
          [({ role := Role.user, content := m } : ChatMessage)]).dropLast =
        initHistory history := by
    simp
  constructor
  · simp [sendMessageToGemini, hdrop]
  · intro hne
    simp [sendMessageToGemini, hdrop, initHistory, List.length_eq_zero, hne]

theorem rate_limit_retryable_witness :
    (sendMessageToGemini true [{ role := Role.system, content := SYSTEM_PROMPT }]
        "Tung" (ChatFetch.response false 429 none)).2 =
      [{ role := Role.system, content := SYSTEM_PROMPT }] :=
  (rate_limit_retryable [{ role := Role.system, content := SYSTEM_PROMPT }] "Tung").2
    (by decide)

/-! ### History trimming -/

lemma trimHistory_length (h : List ChatMessage) : (trimHistory h).length ≤ 7 := by
  unfold trimHistory
  split_ifs with hl
  · simp only [List.length_cons, List.length_drop]
    omega
  · omega

lemma trimHistory_headI (h : List ChatMessage) : (trimHistory h).headI = h.headI := by
  unfold trimHistory
  split_ifs with hl
  · rfl
  · rfl

/-- The history built by a successful non-streaming exchange before the
trim step: initialized history plus the user turn and the assistant reply. -/
def chatExchange (history : List ChatMessage) (m reply : String) :
    List ChatMessage :=
  initHistory history ++
    [{ role := Role.user, content := m }, { role := Role.assistant, content := reply }]

/-- A concrete six-entry history (system prompt at index 0), used to
exercise the trim branch: one more exchange makes eight entries. -/
def histSix : List ChatMessage :=
  [{ role := Role.system, content := SYSTEM_PROMPT },
   { role := Role.user, content := "a1" }, { role := Role.assistant, content := "b1" },
   { role := Role.user, content := "a2" }, { role := Role.assistant, content := "b2" },
   { role := Role.user, content := "a3" }]

/-- Claim C7 does not hold verbatim for the streaming variant: a
successful `streamMessageToGemini` call pushes the assistant reply without
any trim, so from a six-entry history the call completes with eight
entries — the history exceeds 7 after a completed exchange. -/
theorem history_trim_counterexample :
    ((streamMessageToGemini (fun _ => none) true histSix "a4"
        (StreamFetch.response true 200 [])).2).length > 7 := by
  decide

/-- Claim C7 (amended): after every successful **non-streaming** reply
call (`sendMessageToGemini`, any status, any content — including an empty
or absent content, where the fallback reply is pushed), the history is the
exchange history trimmed: its length never exceeds 7, the entry at index 0
is retained, and whenever the exchange history exceeds 7 entries only its
most recent 6 entries are kept after the retained head (the older
non-system entries are dropped).  The streaming variant performs no trim. -/
theorem history_trim_after_success (history : List ChatMessage)
    (m : String) (status : ℕ) (content : Option String) :
    sendMessageToGemini true history m (ChatFetch.response true status content) =
      (Except.ok (resolveReply content),
       trimHistory (chatExchange history m (resolveReply content))) ∧
    ((sendMessageToGemini true history m
        (ChatFetch.response true status content)).2).length ≤ 7 ∧
    ((sendMessageToGemini true history m
        (ChatFetch.response true status content)).2).headI =
      (chatExchange history m (resolveReply content)).headI ∧
    ((chatExchange history m (resolveReply content)).length > 7 →
      (sendMessageToGemini true history m
          (ChatFetch.response true status content)).2 =
        (chatExchange history m (resolveReply content)).headI ::
          (chatExchange history m (resolveReply content)).drop
            ((chatExchange history m (resolveReply content)).length - 6)) := by
  have hsend :
      sendMessageToGemini true history m (ChatFetch.response true status content) =
        (Except.ok (resolveReply content),
         trimHistory (chatExchange history m (resolveReply content))) := by
    simp [sendMessageToGemini, chatExchange]
  refine ⟨hsend, ?_, ?_, ?_⟩
  · rw [hsend]
    exact trimHistory_length _
  · rw [hsend]
    exact trimHistory_headI _
  · intro hlen
    rw [hsend]
    show trimHistory (chatExchange history m (resolveReply content)) = _
    unfold trimHistory
    rw [if_pos hlen]

theorem history_trim_after_success_witness :
    ((sendMessageToGemini true histSix "a4"
        (ChatFetch.response true 200 none)).2).length ≤ 7 ∧
    (sendMessageToGemini true histSix "a4"
        (ChatFetch.response true 200 none)).2 =
      (chatExchange histSix "a4" (resolveReply none)).headI ::
        (chatExchange histSix "a4" (resolveReply none)).drop
          ((chatExchange histSix "a4" (resolveReply none)).length - 6) :=
  ⟨(history_trim_after_success histSix "a4" 200 none).2.1,
   (history_trim_after_success histSix "a4" 200 none).2.2.2 (by decide)⟩

/-! ### Stream chunk decoding -/

/-- A concrete stand-in for `JSON.parse` + `choices[0]?.delta?.content`:
payload `"A"` parses to content `"ok"`, everything else fails to parse. -/
def parseStub : String → Option (Option String) := fun s =>
  if s = "A" then some (some "ok") else none

/-- Claim C8 does not hold verbatim: the sentinel `"data: [DONE]"` does
not mark end-of-stream in the code — it is merely skipped, and a data line
arriving after it is still parsed and yielded. -/
theorem stream_sentinel_counterexample :
    (processLines parseStub "" ["data: [DONE]", "data: A"]).2 ≠ [] := by
  decide

/-- Claim C8 (amended): a line with the `data: ` prefix (other than the
sentinel) is parsed and its content, when present and non-empty, is
appended to the running reply and yielded; a line that fails to parse is
skipped and the rest of the stream is still processed; the literal
sentinel `"data: [DONE]"` is never parsed as content and is skipped —
end-of-stream is the reader reporting done, not the sentinel. -/
theorem stream_chunk_handling (parse : String → Option (Option String))
    (acc line : String) (rest : List String) :
    (jsStartsWith line "data: " = true → line ≠ "data: [DONE]" →
      parse (line.drop 6) = none →
      processLines parse acc (line :: rest) = processLines parse acc rest) ∧
    (∀ c, jsStartsWith line "data: " = true → line ≠ "data: [DONE]" →
      parse (line.drop 6) = some (some c) → c ≠ "" →
      processLines parse acc (line :: rest) =
        ((processLines parse (acc ++ c) rest).1,
         c :: (processLines parse (acc ++ c) rest).2)) ∧
    processLines parse acc ("data: [DONE]" :: rest) =
      processLines parse acc rest := by
  refine ⟨?_, ?_, ?_⟩
  · intro h1 h2 h3
    simp [processLines, processLine, h1, h2, h3]
  · intro c h1 h2 h3 hc
    simp [processLines, processLine, h1, h2, h3, hc]
  · simp [processLines, processLine]

theorem stream_chunk_handling_witness :
    processLines parseStub "" ["data: B", "data: A"] =
      processLines parseStub "" ["data: A"] ∧
    processLines parseStub "" ["data: A"] =
      ((processLines parseStub "ok" []).1,
       "ok" :: (processLines parseStub "ok" []).2) :=
  ⟨(stream_chunk_handling parseStub "" "data: B" ["data: A"]).1
     (by decide) (by decide) (by decide),
   (stream_chunk_handling parseStub "" "data: A" []).2.1 "ok"
     (by decide) (by decide) (by decide) (by decide)⟩

/-! ## Claim theorem: sensor fetch totality -/

/-- Claim C10: `fetchSensorData` always returns a `SensorData` value (the
model is a total function): simulation mode returns the simulated record;
a missing device IP, a rejected or timed-out fetch, a non-2xx status, or
an unparseable body each return the default record (`isConnected = false`,
every sensor field null/false) stamped with the current time; a parsed
body is mapped field by field, each field falling back to null unless it
has the expected type. -/
theorem sensor_fetch_total (simMode : Bool) (piIp : String) (f : SensorFetch)
    (simData : SensorData) (now : ℤ) :
    (simMode = true → fetchSensorData simMode piIp f simData now = simData) ∧
    (simMode = false → piIp = "" →
      fetchSensorData simMode piIp f simData now = defaultSensorAt now) ∧
    (simMode = false → f = SensorFetch.networkFailure →
      fetchSensorData simMode piIp f simData now = defaultSensorAt now) ∧
    (∀ json, simMode = false → f = SensorFetch.response false json →
      fetchSensorData simMode piIp f simData now = defaultSensorAt now) ∧
    (simMode = false → f = SensorFetch.response true none →
      fetchSensorData simMode piIp f simData now = defaultSensorAt now) ∧
    (∀ d, simMode = false → piIp ≠ "" → f = SensorFetch.response true (some d) →
      fetchSensorData simMode piIp f simData now =
        { temperature := asNum d.temperature, humidity := asNum d.humidity,
          tempAlert := truthy d.temp_alert, light := asNum d.light,
          lightIsDark := truthy d.light_is_dark, motion := truthy d.motion,
          lastMotion := asNum d.last_motion, isConnected := true,
          lastUpdated := now }) ∧
    (∀ v : Option JValue, (∀ q : ℚ, v ≠ some (JValue.jnum q)) → asNum v = none) := by
  refine ⟨?_, ?_, ?_, ?_, ?_, ?_, ?_⟩
  · intro h
    simp [fetchSensorData, h]
  · intro h1 h2
    simp [fetchSensorData, h1, h2]
  · intro h1 h2
    subst h2
    by_cases hip : piIp = "" <;> simp [fetchSensorData, h1, hip]
  · intro json h1 h2
    subst h2
    by_cases hip : piIp = "" <;> simp [fetchSensorData, h1, hip]
  · intro h1 h2
    subst h2
    by_cases hip : piIp = "" <;> simp [fetchSensorData, h1, hip]
  · intro d h1 h2 h3
    subst h3
    simp [fetchSensorData, h1, h2]
  · intro v hv
    cases v with
    | none => rfl
    | some j =>
      cases j with
      | jnum q => exact absurd rfl (hv q)
      | jnull => rfl
      | jbool b => rfl
      | jstr s => rfl
      | jobj => rfl

/-- A concrete sensor body with mixed field types: a numeric temperature,
a string humidity (wrong type), a boolean alert, an absent light field, a
zero (falsy) darkness flag, a string (truthy) motion flag, and a null
last-motion. -/
def sensorBodyEx : SensorResponse :=
  { temperature := some (JValue.jnum 21), humidity := some (JValue.jstr "x"),
    temp_alert := some (JValue.jbool true), light := none,
    light_is_dark := some (JValue.jnum 0), motion := some (JValue.jstr "yes"),
    last_motion := some JValue.jnull }

theorem sensor_fetch_total_witness :
    fetchSensorData false "192.168.1.50"
        (SensorFetch.response true (some sensorBodyEx)) (defaultSensorAt 0) 99 =
      { temperature := some 21, humidity := none, tempAlert := true,
        light := none, lightIsDark := false, motion := true,
        lastMotion := none, isConnected := true, lastUpdated := 99 } := by
  have h := (sensor_fetch_total false "192.168.1.50"
      (SensorFetch.response true (some sensorBodyEx)) (defaultSensorAt 0)
      99).2.2.2.2.2.1 sensorBodyEx rfl (by decide) rfl
  rw [h]
  simp [sensorBodyEx, asNum, truthy]

end Aera
